import Mathlib

/-!
Shallow embedding of `vault-periodic-oidc-login` (`src/main.go`).

The program has three functions:
* `ttl` (freshness evaluator, `src/main.go` lines 50-94): stats and reads a
  token file, sets the token on the shared Vault client, performs a
  `LookupSelf` call, extracts and parses the `expire_time` field, and returns
  `expire_time - now`; every failure branch returns a zero duration.
* `oidcLogin` (process supervisor, lines 97-138): starts `vault login`,
  arms a SIGTERM timer at 1 minute and a SIGKILL timer at 90 seconds (both
  from the same arming point, right after a successful start), blocks on the
  wait result, stops both timers, and maps the wait result to the returned
  error.
* `main` (orchestrator, lines 15-47): parses the minimum TTL, builds the
  client, evaluates `ttl`; if the current TTL is strictly greater than the
  minimum it exits 0; otherwise it runs `oidcLogin` (fatal exit 1 on failure)
  and then re-evaluates `ttl` for logging before exiting 0.

External collaborators (filesystem, the Vault HTTP API, Go's stdlib
`time.Parse`, the spawned process, the timer callbacks' signal delivery) are
modelled as oracle fields of explicit environment records; durations and
timestamps are `Int` nanoseconds.  Each embedded function additionally
returns the list of externally visible effects it performs, in program
order, so that claims about which effects happen (and in which order) can be
stated.
-/

/-- Outcome of the `os.Stat(tokenPath)` call at the top of `ttl`
(`src/main.go` line 51): the path does not exist, it exists but stat fails
with some other error, or stat succeeds. -/
inductive StatOutcome where
  | notExist
  | accessError
  | ok
deriving DecidableEq

/-- A value stored in the `secret.Data` map returned by `LookupSelf`
(Go `map[string]interface\x7b\x7d`): either a string or some non-string value. -/
inductive VaultValue where
  | str (s : String)
  | nonStr
deriving DecidableEq

/-- The `*api.Secret` result of a successful `LookupSelf`: only its `Data`
map is consumed, modelled as an association list. -/
structure Secret where
  data : List (String × VaultValue)
deriving DecidableEq

/-- The modelled state of the shared `*api.Client`: the fields the program
touches are the active token (written by `SetToken`, line 65) and the
address (read by `client.Address()`, line 98). -/
structure ClientState where
  token : String
  address : String
deriving DecidableEq

/-- Go `client.SetToken(token)`: overwrite the active token, leaving every
other client field unchanged. -/
def ClientState.setToken (c : ClientState) (t : String) : ClientState :=
  { c with token := t }

/-- Oracle record fixing the outcomes of the external calls one run of `ttl`
makes: the stat outcome, the file contents (`none` = `os.ReadFile` error),
the `LookupSelf` response as a function of the token it authenticates with
(`none` = lookup error), Go's `time.Parse(time.RFC3339Nano, _)` as a partial
function to an absolute nanosecond timestamp, and the current time used by
`time.Until`. -/
structure TtlEnv where
  stat : StatOutcome
  readFile : Option String
  lookupSelf : String → Option Secret
  parseTime : String → Option Int
  now : Int

/-- Externally visible effects of one `ttl` run, in program order. -/
inductive TtlEffect where
  | readFile
  | setToken (t : String)
  | lookupSelf (t : String)
deriving DecidableEq

/-- Embedding of `ttl` (`src/main.go` lines 50-94).  Returns the duration,
the resulting client state and the effect trace.  Every failure branch
returns duration `0`; the success branch returns `expire_time - now`
(`time.Until(expireTime)`, line 91). -/
def ttl (env : TtlEnv) (client : ClientState) :
    Int × ClientState × List TtlEffect :=
  match env.stat with
  | .notExist => (0, client, [])
  | .accessError => (0, client, [])
  | .ok =>
    match env.readFile with
    | none => (0, client, [.readFile])
    | some tokenData =>
      let token := tokenData
      let c2 := client.setToken token
      let evs := [TtlEffect.readFile, .setToken token, .lookupSelf token]
      match env.lookupSelf token with
      | none => (0, c2, evs)
      | some secret =>
        match secret.data.lookup "expire_time" with
        | none => (0, c2, evs)
        | some .nonStr => (0, c2, evs)
        | some (.str expireTimeStr) =>
          match env.parseTime expireTimeStr with
          | none => (0, c2, evs)
          | some expireTime => (expireTime - env.now, c2, evs)

/-- Nanoseconds per second (Go `time.Duration` is an int64 nanosecond
count). -/
def nsPerSecond : Int := 1000000000

/-- The graceful-termination timer duration: `1*time.Minute`
(`src/main.go` line 113). -/
def termTimeoutNs : Int := 60 * nsPerSecond

/-- The force-kill timer duration: `90*time.Second`
(`src/main.go` line 120). -/
def killTimeoutNs : Int := 90 * nsPerSecond

/-- Oracle record fixing the outcomes of the external interactions of one
`oidcLogin` run: the `cmd.Start()` error, whether each timer callback fires
before the wait result is delivered, the error (if any) of each callback's
signal delivery, and the result of `cmd.Wait()` (`none` = the process exited
with status zero). -/
structure LoginEnv where
  startErr : Option String
  termFires : Bool
  termSignalErr : Option String
  killFires : Bool
  killSignalErr : Option String
  waitErr : Option String

/-- Externally visible events of one `oidcLogin` run, in order.  The
`armTermTimer` / `armKillTimer` events record the timer duration, measured
from the arming instant (so the deadline is absolute from process start). -/
inductive LoginEvent where
  | startProcess
  | armTermTimer (offsetNs : Int)
  | armKillTimer (offsetNs : Int)
  | sendSigterm (sigErr : Option String)
  | sendSigkill (sigErr : Option String)
  | waitReturned (err : Option String)
  | stopTermTimer
  | stopKillTimer
deriving DecidableEq

/-- Embedding of `oidcLogin` (`src/main.go` lines 97-138).  Returns the
returned error (`none` = nil) and the event trace.  When the 60-second timer
fires before the 90-second one does (always, in real time), the SIGTERM
attempt precedes the SIGKILL attempt; signal-delivery errors appear in the
trace (they are logged, lines 116 and 123) but the returned error is
computed from the wait result alone (lines 127-137). -/
def oidcLogin (env : LoginEnv) : Option String × List LoginEvent :=
  match env.startErr with
  | some e => (some ("error starting vault login: " ++ e), [.startProcess])
  | none =>
    let fired :=
      (if env.termFires then [LoginEvent.sendSigterm env.termSignalErr] else [])
        ++ (if env.killFires then [LoginEvent.sendSigkill env.killSignalErr] else [])
    let events :=
      [LoginEvent.startProcess, .armTermTimer termTimeoutNs,
        .armKillTimer killTimeoutNs]
        ++ fired
        ++ [.waitReturned env.waitErr, .stopTermTimer, .stopKillTimer]
    match env.waitErr with
    | some e => (some ("error during OIDC login: " ++ e), events)
    | none => (none, events)

/-- Oracle record for one run of `main`: the parsed `-min-ttl` duration
(`none` = `time.ParseDuration` error), whether `api.NewClient` succeeds, the
configured address, and the environments of the first `ttl` call, the
`oidcLogin` call and the second `ttl` call. -/
structure MainEnv where
  vaultAddr : String
  minTTL : Option Int
  clientOk : Bool
  ttlEnv1 : TtlEnv
  loginEnv : LoginEnv
  ttlEnv2 : TtlEnv

/-- Top-level actions of one run of `main`, in order. -/
inductive MainEvent where
  | evalTtl (d : Int)
  | invokeLogin
  | logSecondTtl (d : Int)
deriving DecidableEq

/-- The client produced by `api.NewClient(&api.Config\x7bAddress: vaultAddr\x7d)`
(`src/main.go` lines 27-29): the configured address and no token yet. -/
def initialClient (env : MainEnv) : ClientState :=
  { token := "", address := env.vaultAddr }

/-- Embedding of `main` (`src/main.go` lines 15-47).  Returns the process
exit status (`log.Fatalf` exits with status 1) and the trace of top-level
actions.  The login is skipped exactly when `currTTL > minTTL` (strict
comparison, line 36). -/
def mainRun (env : MainEnv) : Int × List MainEvent :=
  match env.minTTL with
  | none => (1, [])
  | some minTTL =>
    if env.clientOk then
      let r1 := ttl env.ttlEnv1 (initialClient env)
      let currTTL := r1.1
      if minTTL < currTTL then
        (0, [.evalTtl currTTL])
      else
        match (oidcLogin env.loginEnv).1 with
        | some _ => (1, [.evalTtl currTTL, .invokeLogin])
        | none =>
          let r2 := ttl env.ttlEnv2 r1.2.1
          (0, [.evalTtl currTTL, .invokeLogin, .logSecondTtl r2.1])
    else (1, [])

/-! ### Concrete environments used by witnesses and counterexamples -/

/-- A client with no token, as `main` builds it. -/
def clientW : ClientState := { token := "", address := "https://vault.example.com" }

/-- A lookup response whose `Data` holds a well-formed `expire_time`
string. -/
def secretW : Secret := ⟨[("expire_time", VaultValue.str "2026-03-01T00:00:00Z")]⟩

/-- A `ttl` environment for the full success path: the file exists and is
readable, the lookup succeeds with `secretW`, the timestamp parses to 5000
ns, and now is 1000 ns, so the TTL is 4000 ns. -/
def envFreshW : TtlEnv :=
  { stat := .ok, readFile := some "s.XYZtoken\n",
    lookupSelf := fun _ => some secretW,
    parseTime := fun _ => some 5000, now := 1000 }

/-- A `ttl` environment whose token file does not exist. -/
def envNoFileW : TtlEnv :=
  { stat := .notExist, readFile := none,
    lookupSelf := fun _ => none, parseTime := fun _ => none, now := 0 }

/-- A `ttl` environment where the file is readable but the lookup fails. -/
def envLookupFailW : TtlEnv :=
  { stat := .ok, readFile := some "s.bad",
    lookupSelf := fun _ => none, parseTime := fun _ => none, now := 0 }

/-- A `ttl` environment where the lookup succeeds but its `Data` has no
`expire_time` key. -/
def envNoExpireW : TtlEnv :=
  { stat := .ok, readFile := some "s.bad",
    lookupSelf := fun _ => some ⟨[]⟩, parseTime := fun _ => none, now := 0 }

/-- A `ttl` environment where `expire_time` is present but not a string. -/
def envNonStrW : TtlEnv :=
  { stat := .ok, readFile := some "s.bad",
    lookupSelf := fun _ => some ⟨[("expire_time", VaultValue.nonStr)]⟩,
    parseTime := fun _ => none, now := 0 }

/-- A `ttl` environment where `expire_time` is a string that fails to
parse. -/
def envBadTimeW : TtlEnv :=
  { stat := .ok, readFile := some "s.bad",
    lookupSelf := fun _ => some ⟨[("expire_time", VaultValue.str "garbage")]⟩,
    parseTime := fun _ => none, now := 0 }

/-! ### Freshness evaluator claims -/

/-- C2: the `ttl` evaluation never raises a hard error; on each failure
mode — path does not exist, stat error, read error, lookup failure, missing
`expire_time`, non-string `expire_time`, unparseable timestamp — it returns
a duration of exactly zero. -/
theorem ttl_failure_modes_zero (env : TtlEnv) (client : ClientState) :
    (env.stat = .notExist → (ttl env client).1 = 0) ∧
    (env.stat = .accessError → (ttl env client).1 = 0) ∧
    (env.readFile = none → (ttl env client).1 = 0) ∧
    (∀ tok, env.readFile = some tok → env.lookupSelf tok = none →
      (ttl env client).1 = 0) ∧
    (∀ tok secret, env.readFile = some tok → env.lookupSelf tok = some secret →
      secret.data.lookup "expire_time" = none → (ttl env client).1 = 0) ∧
    (∀ tok secret, env.readFile = some tok → env.lookupSelf tok = some secret →
      secret.data.lookup "expire_time" = some VaultValue.nonStr →
      (ttl env client).1 = 0) ∧
    (∀ tok secret s, env.readFile = some tok →
      env.lookupSelf tok = some secret →
      secret.data.lookup "expire_time" = some (VaultValue.str s) →
      env.parseTime s = none → (ttl env client).1 = 0) := by
  refine ⟨?_, ?_, ?_, ?_, ?_, ?_, ?_⟩
  · intro h; simp [ttl, h]
  · intro h; simp [ttl, h]
  · intro h
    cases hs : env.stat <;> simp [ttl, hs, h]
  · intro tok h1 h2
    cases hs : env.stat <;> simp [ttl, hs, h1, h2]
  · intro tok secret h1 h2 h3
    cases hs : env.stat <;> simp [ttl, hs, h1, h2, h3]
  · intro tok secret h1 h2 h3
    cases hs : env.stat <;> simp [ttl, hs, h1, h2, h3]
  · intro tok secret s h1 h2 h3 h4
    cases hs : env.stat <;> simp [ttl, hs, h1, h2, h3, h4]

/-- C2 witness: the seven failure modes evaluated at concrete
environments all yield duration zero. -/
theorem ttl_failure_modes_zero_witness :
    (ttl envNoFileW clientW).1 = 0 ∧
    (ttl { envNoFileW with stat := .accessError } clientW).1 = 0 ∧
    (ttl { envLookupFailW with readFile := none } clientW).1 = 0 ∧
    (ttl envLookupFailW clientW).1 = 0 ∧
    (ttl envNoExpireW clientW).1 = 0 ∧
    (ttl envNonStrW clientW).1 = 0 ∧
    (ttl envBadTimeW clientW).1 = 0 :=
  ⟨(ttl_failure_modes_zero envNoFileW clientW).1 rfl,
   (ttl_failure_modes_zero _ clientW).2.1 rfl,
   (ttl_failure_modes_zero _ clientW).2.2.1 rfl,
   (ttl_failure_modes_zero envLookupFailW clientW).2.2.2.1 "s.bad" rfl rfl,
   (ttl_failure_modes_zero envNoExpireW clientW).2.2.2.2.1 "s.bad" ⟨[]⟩
     rfl rfl rfl,
   (ttl_failure_modes_zero envNonStrW clientW).2.2.2.2.2.1 "s.bad"
     ⟨[("expire_time", VaultValue.nonStr)]⟩ rfl rfl (by decide),
   (ttl_failure_modes_zero envBadTimeW clientW).2.2.2.2.2.2 "s.bad"
     ⟨[("expire_time", VaultValue.str "garbage")]⟩ "garbage" rfl rfl
     (by decide) rfl⟩

/-- C8: when the storage path does not exist, `ttl` returns zero with an
empty effect trace — in particular the file is not read, no lookup is
attempted, and the client is untouched. -/
theorem ttl_no_file_no_effects (env : TtlEnv) (client : ClientState)
    (h : env.stat = .notExist) :
    ttl env client = (0, client, ([] : List TtlEffect)) := by
  simp [ttl, h]

/-- C8 witness: at a concrete nonexistent path, `ttl` returns zero, keeps
the client, and performs no effect. -/
theorem ttl_no_file_no_effects_witness :
    ttl envNoFileW clientW = (0, clientW, ([] : List TtlEffect)) :=
  ttl_no_file_no_effects envNoFileW clientW rfl

/-- C7: on the full success path — file readable, lookup successful,
`expire_time` a string parsing to timestamp `t` — `ttl` returns exactly
`t - now`; hence a strictly positive duration when the expiry is in the
future and a negative one when it is in the past. -/
theorem ttl_success_value (env : TtlEnv) (client : ClientState)
    (tok : String) (secret : Secret) (s : String) (t : Int)
    (h1 : env.stat = .ok) (h2 : env.readFile = some tok)
    (h3 : env.lookupSelf tok = some secret)
    (h4 : secret.data.lookup "expire_time" = some (VaultValue.str s))
    (h5 : env.parseTime s = some t) :
    (ttl env client).1 = t - env.now ∧
    (env.now < t → 0 < (ttl env client).1) ∧
    (t < env.now → (ttl env client).1 < 0) := by
  have hval : (ttl env client).1 = t - env.now := by
    simp [ttl, h1, h2, h3, h4, h5]
  exact ⟨hval, fun h => by rw [hval]; omega, fun h => by rw [hval]; omega⟩

/-- C7 witness: with expiry timestamp 5000 ns and now 1000 ns, `ttl`
returns 4000 ns, strictly positive. -/
theorem ttl_success_value_witness :
    (ttl envFreshW clientW).1 = 5000 - 1000 ∧ 0 < (ttl envFreshW clientW).1 :=
  ⟨(ttl_success_value envFreshW clientW "s.XYZtoken\n" secretW
      "2026-03-01T00:00:00Z" 5000 rfl rfl rfl (by decide) rfl).1,
   (ttl_success_value envFreshW clientW "s.XYZtoken\n" secretW
      "2026-03-01T00:00:00Z" 5000 rfl rfl rfl (by decide) rfl).2.1
      (by decide)⟩

/-- C10: whenever the token file exists and is readable, `ttl` sets the
client token to the raw file contents verbatim and leaves the address
unchanged; this holds on every subsequent branch (lookup failure, missing
or non-string `expire_time`, parse failure, success), so the mutation
persists even when the evaluation returns zero. -/
theorem ttl_sets_token_verbatim (env : TtlEnv) (client : ClientState)
    (tok : String) (h1 : env.stat = .ok) (h2 : env.readFile = some tok) :
    (ttl env client).2.1 = { token := tok, address := client.address } := by
  cases h3 : env.lookupSelf tok with
  | none => simp [ttl, h1, h2, h3, ClientState.setToken]
  | some secret =>
    cases h4 : secret.data.lookup "expire_time" with
    | none => simp [ttl, h1, h2, h3, h4, ClientState.setToken]
    | some v =>
      cases v with
      | nonStr => simp [ttl, h1, h2, h3, h4, ClientState.setToken]
      | str s =>
        cases h5 : env.parseTime s with
        | none => simp [ttl, h1, h2, h3, h4, h5, ClientState.setToken]
        | some t => simp [ttl, h1, h2, h3, h4, h5, ClientState.setToken]

/-- C10 witness: on a failing path (lookup error) the client token is the
raw file contents, trailing newline included, and the address is kept. -/
theorem ttl_sets_token_verbatim_witness :
    (ttl { envLookupFailW with readFile := some "s.tok\n" } clientW).2.1 =
      { token := "s.tok\n", address := clientW.address } :=
  ttl_sets_token_verbatim _ clientW "s.tok\n" rfl rfl

/-! ### Process supervisor claims -/

/-- A login environment for a clean run: start succeeds, neither timer
fires, the process exits with status zero. -/
def loginCleanW : LoginEnv :=
  { startErr := none, termFires := false, termSignalErr := none,
    killFires := false, killSignalErr := none, waitErr := none }

/-- A login environment where both timers fire, the SIGTERM delivery
itself errors, and the wait reports a kill. -/
def loginEscalatedW : LoginEnv :=
  { startErr := none, termFires := true,
    termSignalErr := some "os: process already finished",
    killFires := true, killSignalErr := none,
    waitErr := some "signal: killed" }

/-- A login environment where the executable cannot be started. -/
def loginStartFailW : LoginEnv :=
  { startErr := some "exec: vault: executable file not found in $PATH",
    termFires := false, termSignalErr := none,
    killFires := false, killSignalErr := none, waitErr := none }

/-- C3: after a successful start, the result of `oidcLogin` is determined
solely by the wait outcome — it is `none` iff the process exited with
status zero, otherwise it wraps the wait error; and any two runs agreeing
on the wait outcome return the same result no matter which timers fired or
whether signal delivery errored. -/
theorem oidcLogin_result_from_wait (env : LoginEnv)
    (h : env.startErr = none) :
    ((oidcLogin env).1 = none ↔ env.waitErr = none) ∧
    (∀ e, env.waitErr = some e →
      (oidcLogin env).1 = some ("error during OIDC login: " ++ e)) ∧
    (∀ env2 : LoginEnv, env2.startErr = none → env2.waitErr = env.waitErr →
      (oidcLogin env2).1 = (oidcLogin env).1) := by
  refine ⟨?_, ?_, ?_⟩
  · cases hw : env.waitErr <;> simp [oidcLogin, h, hw]
  · intro e hw; simp [oidcLogin, h, hw]
  · intro env2 h2 hw
    cases hw2 : env2.waitErr <;>
      simp [oidcLogin, h, h2, hw2, hw2 ▸ hw.symm]

/-- The escalated run with all timer activity removed but the same wait
outcome: used to witness that the result is insensitive to timer firings
and signal-delivery errors. -/
def loginEscalatedQuietW : LoginEnv :=
  { loginEscalatedW with
      termFires := false, killFires := false, termSignalErr := none }

/-- C3 witness: the escalated run (both timers fired, SIGTERM delivery
errored) returns exactly the wrapped wait error, the same result as a run
with no timer activity and the same wait outcome, and the clean run
returns success. -/
theorem oidcLogin_result_from_wait_witness :
    (oidcLogin loginEscalatedW).1 =
      some ("error during OIDC login: " ++ "signal: killed") ∧
    (oidcLogin loginEscalatedQuietW).1 = (oidcLogin loginEscalatedW).1 ∧
    (oidcLogin loginCleanW).1 = none :=
  ⟨(oidcLogin_result_from_wait loginEscalatedW rfl).2.1 "signal: killed" rfl,
   (oidcLogin_result_from_wait loginEscalatedW rfl).2.2
     loginEscalatedQuietW rfl rfl,
   (oidcLogin_result_from_wait loginCleanW rfl).1.mpr rfl⟩

/-- C4: after a successful start, the first three events are the process
start immediately followed by arming the graceful timer at 60 seconds and
the kill timer at 90 seconds — both armed at invocation time, before any
signal can be sent, with constant offsets measured from the same arming
point; this holds for every combination of timer firings, so the force-kill
deadline is absolute from process start regardless of whether the graceful
signal was already sent. -/
theorem oidcLogin_timers_armed_at_start (env : LoginEnv)
    (h : env.startErr = none) :
    (oidcLogin env).2.take 3 =
      [LoginEvent.startProcess, .armTermTimer (60 * nsPerSecond),
        .armKillTimer (90 * nsPerSecond)] ∧
    (∀ b1 b2 : Bool,
      (oidcLogin { env with termFires := b1, killFires := b2 }).2.take 3 =
        [LoginEvent.startProcess, .armTermTimer (60 * nsPerSecond),
          .armKillTimer (90 * nsPerSecond)]) := by
  constructor
  · cases hw : env.waitErr <;>
      simp [oidcLogin, h, hw, termTimeoutNs, killTimeoutNs]
  · intro b1 b2
    cases hw : env.waitErr <;>
      simp [oidcLogin, h, hw, termTimeoutNs, killTimeoutNs]

/-- C4 witness: in the escalated run both arm events appear right after the
start, with 60-second and 90-second offsets. -/
theorem oidcLogin_timers_armed_at_start_witness :
    (oidcLogin loginEscalatedW).2.take 3 =
      [LoginEvent.startProcess, .armTermTimer (60 * nsPerSecond),
        .armKillTimer (90 * nsPerSecond)] :=
  (oidcLogin_timers_armed_at_start loginEscalatedW rfl).1

/-- C5: after a successful start, whatever fired in between, the trace ends
with the wait result being received and then both timers being stopped, in
that order — the call returns only after the wait completed, and both stop
calls happen before returning on every such path. -/
theorem oidcLogin_stops_timers_after_wait (env : LoginEnv)
    (h : env.startErr = none) :
    ∃ pre : List LoginEvent,
      (oidcLogin env).2 =
        pre ++ [LoginEvent.waitReturned env.waitErr, .stopTermTimer,
          .stopKillTimer] := by
  refine ⟨[LoginEvent.startProcess, .armTermTimer termTimeoutNs,
    .armKillTimer killTimeoutNs]
      ++ ((if env.termFires then [LoginEvent.sendSigterm env.termSignalErr]
            else [])
        ++ (if env.killFires then [LoginEvent.sendSigkill env.killSignalErr]
            else [])), ?_⟩
  cases hw : env.waitErr <;> simp [oidcLogin, h, hw]

/-- C5 witness: the escalated run's trace ends with the wait result and the
two timer stops. -/
theorem oidcLogin_stops_timers_after_wait_witness :
    ∃ pre : List LoginEvent,
      (oidcLogin loginEscalatedW).2 =
        pre ++ [LoginEvent.waitReturned (some "signal: killed"),
          .stopTermTimer, .stopKillTimer] :=
  oidcLogin_stops_timers_after_wait loginEscalatedW rfl

/-- C6: when the process cannot be started, `oidcLogin` immediately returns
the wrapped start error, and no arm-timer event occurs in the trace — the
trace is just the failed start. -/
theorem oidcLogin_start_failure (env : LoginEnv) (e : String)
    (h : env.startErr = some e) :
    (oidcLogin env).1 = some ("error starting vault login: " ++ e) ∧
    (oidcLogin env).2 = [LoginEvent.startProcess] ∧
    (∀ off : Int, LoginEvent.armTermTimer off ∉ (oidcLogin env).2 ∧
      LoginEvent.armKillTimer off ∉ (oidcLogin env).2) := by
  refine ⟨by simp [oidcLogin, h], by simp [oidcLogin, h], ?_⟩
  intro off
  constructor <;> simp [oidcLogin, h]

/-- C6 witness: with a nonexistent executable, the start error is returned
and no timer is armed. -/
theorem oidcLogin_start_failure_witness :
    (oidcLogin loginStartFailW).1 =
      some ("error starting vault login: "
        ++ "exec: vault: executable file not found in $PATH") ∧
    LoginEvent.armKillTimer (90 * nsPerSecond) ∉ (oidcLogin loginStartFailW).2 :=
  ⟨(oidcLogin_start_failure loginStartFailW
      "exec: vault: executable file not found in $PATH" rfl).1,
   ((oidcLogin_start_failure loginStartFailW
      "exec: vault: executable file not found in $PATH" rfl).2.2
      (90 * nsPerSecond)).2⟩

/-! ### Orchestrator claims -/

/-- A `main` environment where the configured minimum TTL is 0 and the
evaluated TTL is also 0 (token file absent), so the evaluated freshness
equals the minimum; the login itself succeeds. -/
def cexMainEnv : MainEnv :=
  { vaultAddr := "https://vault.example.com", minTTL := some 0,
    clientOk := true, ttlEnv1 := envNoFileW, loginEnv := loginCleanW,
    ttlEnv2 := envNoFileW }

/-- C1 counterexample: a run in which the evaluated freshness duration
equals (hence is greater than or equal to) the configured minimum, yet the
login command IS invoked — the code at `src/main.go` line 36 skips the
login only on the strict comparison `currTTL > minTTL`, so the claim's
"greater than or equal" boundary case renews instead of exiting early. -/
theorem main_ge_min_still_invokes_login :
    (ttl cexMainEnv.ttlEnv1 (initialClient cexMainEnv)).1 = 0 ∧
    cexMainEnv.minTTL = some 0 ∧
    MainEvent.invokeLogin ∈ (mainRun cexMainEnv).2 := by
  refine ⟨rfl, rfl, ?_⟩
  have h : mainRun cexMainEnv =
      (0, [MainEvent.evalTtl 0, .invokeLogin, .logSecondTtl 0]) := rfl
  rw [h]
  simp

/-- C1 amended: for every run in which the evaluated freshness duration is
STRICTLY greater than the configured minimum, the program exits 0 without
invoking the login command. -/
theorem main_skips_login_strict (env : MainEnv) (m : Int)
    (h1 : env.minTTL = some m) (h2 : env.clientOk = true)
    (h3 : m < (ttl env.ttlEnv1 (initialClient env)).1) :
    mainRun env =
      (0, [MainEvent.evalTtl (ttl env.ttlEnv1 (initialClient env)).1]) ∧
    MainEvent.invokeLogin ∉ (mainRun env).2 := by
  have he : mainRun env =
      (0, [MainEvent.evalTtl (ttl env.ttlEnv1 (initialClient env)).1]) := by
    simp [mainRun, h1, h2, h3]
  exact ⟨he, by rw [he]; simp⟩

/-- A `main` environment whose evaluated TTL (4000 ns) strictly exceeds the
configured minimum (10 ns). -/
def witSkipEnv : MainEnv :=
  { vaultAddr := "https://vault.example.com", minTTL := some 10,
    clientOk := true, ttlEnv1 := envFreshW, loginEnv := loginCleanW,
    ttlEnv2 := envNoFileW }

/-- C1 amended witness: with TTL 4000 ns and minimum 10 ns the run exits 0
having only evaluated the TTL, never invoking the login. -/
theorem main_skips_login_strict_witness :
    mainRun witSkipEnv =
      (0, [MainEvent.evalTtl
        (ttl witSkipEnv.ttlEnv1 (initialClient witSkipEnv)).1]) ∧
    MainEvent.invokeLogin ∉ (mainRun witSkipEnv).2 :=
  main_skips_login_strict witSkipEnv 10 rfl rfl (by decide)

/-- C9: when the login path is taken and the supervised login succeeds,
`main` re-evaluates the TTL (on the client as left by the first
evaluation) purely for logging and exits 0 — for every possible outcome of
the second evaluation, including zero, the exit status is 0 and the trace
is exactly evaluate, login, log. -/
theorem main_second_eval_reporting_only (env : MainEnv) (m : Int)
    (h1 : env.minTTL = some m) (h2 : env.clientOk = true)
    (h3 : ¬ m < (ttl env.ttlEnv1 (initialClient env)).1)
    (h4 : (oidcLogin env.loginEnv).1 = none) :
    (mainRun env).1 = 0 ∧
    (mainRun env).2 =
      [MainEvent.evalTtl (ttl env.ttlEnv1 (initialClient env)).1,
        MainEvent.invokeLogin,
        MainEvent.logSecondTtl
          (ttl env.ttlEnv2 (ttl env.ttlEnv1 (initialClient env)).2.1).1] := by
  constructor <;> simp [mainRun, h1, h2, h3, h4]

/-- A `main` environment that takes the renewal path (TTL 0 below minimum
100 ns), with a successful login and a second evaluation yielding 4000
ns. -/
def renewEnvW : MainEnv :=
  { vaultAddr := "https://vault.example.com", minTTL := some 100,
    clientOk := true, ttlEnv1 := envNoFileW, loginEnv := loginCleanW,
    ttlEnv2 := envFreshW }

/-- C9 witness: on the renewal path with a successful login, the run exits
0 and logs the second evaluation. -/
theorem main_second_eval_reporting_only_witness :
    (mainRun renewEnvW).1 = 0 ∧
    (mainRun renewEnvW).2 =
      [MainEvent.evalTtl (ttl renewEnvW.ttlEnv1 (initialClient renewEnvW)).1,
        MainEvent.invokeLogin,
        MainEvent.logSecondTtl
          (ttl renewEnvW.ttlEnv2
            (ttl renewEnvW.ttlEnv1 (initialClient renewEnvW)).2.1).1] :=
  main_second_eval_reporting_only renewEnvW 100 rfl rfl (by decide) rfl
